import Mathlib

/-!
Shallow embedding of the buttplug-rs client internals
(src/buttplug/src/client/internal.rs): the correlated future
(ButtplugClientFutureState / ButtplugClientFuture) and the client event loop
(ButtplugClientEventLoop, client_event_loop), with theorems checking the
documented behaviour against the embedded code.

Conventions of the embedding:
- a Rust panic is modelled as an aborted computation (`none` / `Except.error`
  carrying the panic message); a panic never produces a successor state;
- the shared future states handed to the loop are identified by opaque
  tokens (`state : Nat`); the loop records each `set_reply` it performs in an
  effect trace (`Effects.resolutions`), alongside emitted client events,
  sends on per-device event channels, and connector operations;
- HashMaps are modelled as association lists with unique keys
  (insert-replaces, remove-drops-all);
- the nondeterministic three-way race in `run` is driven by an explicit list
  of race winners (`StreamItem`), `none` meaning the corresponding receiver
  observed channel closure.
-/

/-- A task resumption handle (std::task::Waker), identified abstractly. -/
structure Waker where
  id : Nat
deriving DecidableEq

/-- Rust std::task::Poll. -/
inductive Poll (α : Type) where
  | Ready (v : α)
  | Pending
deriving DecidableEq

/-- ButtplugClientFutureState:T: the single-slot reply cell plus the
registered waker of a suspended awaiter. -/
structure ButtplugClientFutureState (T : Type) where
  reply_msg : Option T
  waker : Option Waker
deriving DecidableEq

/-- Default::default() for ButtplugClientFutureState. -/
def ButtplugClientFutureState.default (T : Type) : ButtplugClientFutureState T :=
  { reply_msg := none, waker := none }

/-- ButtplugClientFutureState::set_reply. Returns `none` when the code
panics ("set_reply_msg called multiple times on the same future.");
otherwise the updated state together with the waker that was taken and
woken, if one was registered. -/
def ButtplugClientFutureState.set_reply {T : Type}
    (s : ButtplugClientFutureState T) (reply : T) :
    Option (ButtplugClientFutureState T × Option Waker) :=
  if s.reply_msg.isSome then
    none
  else
    let s1 : ButtplugClientFutureState T := { s with reply_msg := some reply }
    if s1.waker.isSome then
      some ({ s1 with waker := none }, s1.waker)
    else
      some (s1, none)

/-- Future::poll for ButtplugClientFuture:T: if a reply is stored, take it
and return Ready; otherwise register the current task waker and return
Pending. `cx` is the polling task's waker. -/
def ButtplugClientFuture.poll {T : Type} (cx : Waker)
    (s : ButtplugClientFutureState T) :
    Poll T × ButtplugClientFutureState T :=
  match s.reply_msg with
  | some msg => (Poll.Ready msg, { s with reply_msg := none })
  | none => (Poll.Pending, { s with waker := some cx })

/-- ButtplugClientConnectorError (connectors module). -/
structure ButtplugClientConnectorError where
  message : String
deriving DecidableEq

/-- DeviceMessageInfo (core::messages): device index plus metadata. -/
structure DeviceMessageInfo where
  device_index : Nat
  device_name : String
deriving DecidableEq

/-- The protocol message union, restricted to the variants the event loop
inspects; `Other` stands for every remaining variant. -/
inductive ButtplugMessageUnion where
  | DeviceAdded (device_index : Nat) (device_name : String)
  | DeviceList (devices : List DeviceMessageInfo)
  | DeviceRemoved (device_index : Nat)
  | Other (id : Nat)
deriving DecidableEq

/-- ButtplugClientDevice as built by create_client_device: device metadata
plus the receiver id of its freshly allocated event channel. -/
structure ButtplugClientDevice where
  device_index : Nat
  device_name : String
  event_receiver : Nat
deriving DecidableEq

/-- ButtplugClientDeviceEvent: events deliverable on a per-device channel. -/
inductive ButtplugClientDeviceEvent where
  | DeviceDisconnect
  | ClientDisconnect
  | Message (msg : ButtplugMessageUnion)
deriving DecidableEq

/-- ButtplugClientEvent variants produced by the loop. -/
inductive ButtplugClientEvent where
  | DeviceAdded (device : ButtplugClientDevice)
  | DeviceRemoved (info : DeviceMessageInfo)
deriving DecidableEq

instance {ε α : Type} [DecidableEq ε] [DecidableEq α] : DecidableEq (Except ε α) :=
  fun x y =>
    match x, y with
    | .error a, .error b =>
        if h : a = b then .isTrue (by rw [h]) else .isFalse (by simp [h])
    | .ok a, .ok b =>
        if h : a = b then .isTrue (by rw [h]) else .isFalse (by simp [h])
    | .error _, .ok _ => .isFalse (by simp)
    | .ok _, .error _ => .isFalse (by simp)

/-- A ButtplugClientConnector, modelled by the outcomes of its fallible
operations; its notification stream is fed to `run` separately. -/
structure Connector where
  connect_result : Except ButtplugClientConnectorError Unit
  disconnect_result : Except ButtplugClientConnectorError Unit
deriving DecidableEq

/-- Client-to-event-loop commands (enum ButtplugClientMessage). Shared
future states are identified by `state` tokens. -/
inductive ButtplugClientMessage where
  | Connect (connector : Connector) (state : Nat)
  | Disconnect (state : Nat)
  | HandleDeviceList (devices : List DeviceMessageInfo)
  | RequestDeviceList (state : Nat)
  | Message (payload : ButtplugMessageUnion) (state : Nat)
deriving DecidableEq

/-- One recorded `set_reply` performed by the loop on a shared future state. -/
inductive Resolution where
  | connection (state : Nat) (value : Except ButtplugClientConnectorError Unit)
  | deviceList (state : Nat) (value : List ButtplugClientDevice)
deriving DecidableEq

/-- Observable effects of a stretch of loop execution. -/
structure Effects where
  events : List ButtplugClientEvent
  device_events : List (Nat × ButtplugClientDeviceEvent)
  connector_sends : List (ButtplugMessageUnion × Nat)
  resolutions : List Resolution
  connect_called : Bool
  disconnect_called : Bool
deriving DecidableEq

/-- No effects. -/
def Effects.empty : Effects :=
  { events := [], device_events := [], connector_sends := [],
    resolutions := [], connect_called := false, disconnect_called := false }

/-- Sequential composition of effect traces. -/
def Effects.append (a b : Effects) : Effects :=
  { events := a.events ++ b.events,
    device_events := a.device_events ++ b.device_events,
    connector_sends := a.connector_sends ++ b.connector_sends,
    resolutions := a.resolutions ++ b.resolutions,
    connect_called := a.connect_called || b.connect_called,
    disconnect_called := a.disconnect_called || b.disconnect_called }

/-- HashMap::insert on the association-list model (replace in place, else
append). -/
def alistInsert {α : Type} : List (Nat × α) → Nat → α → List (Nat × α)
  | [], k, v => [(k, v)]
  | (k1, v1) :: rest, k, v =>
      if k1 = k then (k, v) :: rest else (k1, v1) :: alistInsert rest k v

/-- HashMap::get on the association-list model. -/
def alistLookup {α : Type} : List (Nat × α) → Nat → Option α
  | [], _ => none
  | (k1, v1) :: rest, k => if k1 = k then some v1 else alistLookup rest k

/-- HashMap::remove on the association-list model (drops every binding of
the key). -/
def alistRemove {α : Type} : List (Nat × α) → Nat → List (Nat × α)
  | [], _ => []
  | (k1, v1) :: rest, k =>
      if k1 = k then alistRemove rest k else (k1, v1) :: alistRemove rest k

/-- struct ButtplugClientEventLoop: the connected-session state. The two
queues and channels are represented by the registry, the subscriber map and
a fresh-channel counter; the connector is carried by value. -/
structure ButtplugClientEventLoop where
  devices : List (Nat × DeviceMessageInfo)
  device_event_senders : List (Nat × List Nat)
  next_channel_id : Nat
  connector : Connector
deriving DecidableEq

/-- The entry(index).or_insert_with(vec).push(sender) pattern of
create_client_device: append a fresh sender to the index's subscriber list,
creating the entry when absent. -/
def subscribeSender (m : List (Nat × List Nat)) (k : Nat) (ch : Nat) :
    List (Nat × List Nat) :=
  match alistLookup m k with
  | some v => alistInsert m k (v ++ [ch])
  | none => alistInsert m k [ch]

/-- ButtplugClientEventLoop::create_client_device: allocate a fresh
per-device event channel, register its sender as a subscriber for the
device index, and build the handle from the info, a cloned device-command
sender, and the fresh receiver. -/
def ButtplugClientEventLoop.create_client_device
    (lp : ButtplugClientEventLoop) (info : DeviceMessageInfo) :
    ButtplugClientEventLoop × ButtplugClientDevice :=
  let ch := lp.next_channel_id
  ({ lp with
      device_event_senders := subscribeSender lp.device_event_senders info.device_index ch,
      next_channel_id := ch + 1 },
   { device_index := info.device_index, device_name := info.device_name,
     event_receiver := ch })

/-- Loop body shared by the DeviceList notification arm and the
HandleDeviceList command arm (the two Rust for-loops are identical):
create a handle, register the info, queue a DeviceAdded event. -/
def deviceListStep (acc : ButtplugClientEventLoop × List ButtplugClientEvent)
    (d : DeviceMessageInfo) :
    ButtplugClientEventLoop × List ButtplugClientEvent :=
  let lp1 := (acc.1.create_client_device d).1
  let device := (acc.1.create_client_device d).2
  ({ lp1 with devices := alistInsert lp1.devices d.device_index d },
   acc.2 ++ [ButtplugClientEvent.DeviceAdded device])

/-- Loop body of the RequestDeviceList arm: mint one handle per registry
entry. -/
def requestListStep (acc : ButtplugClientEventLoop × List ButtplugClientDevice)
    (d : Nat × DeviceMessageInfo) :
    ButtplugClientEventLoop × List ButtplugClientDevice :=
  ((acc.1.create_client_device d.2).1, acc.2 ++ [(acc.1.create_client_device d.2).2])

/-- ButtplugClientEventLoop::parse_connector_message. `.error` carries the
panic message when the Rust code panics. -/
def ButtplugClientEventLoop.parse_connector_message
    (lp : ButtplugClientEventLoop) (msg : ButtplugMessageUnion) :
    Except String (ButtplugClientEventLoop × Effects) :=
  match msg with
  | .DeviceAdded idx name =>
      let info : DeviceMessageInfo := { device_index := idx, device_name := name }
      let lp1 := (lp.create_client_device info).1
      let device := (lp.create_client_device info).2
      Except.ok ({ lp1 with devices := alistInsert lp1.devices idx info },
        { Effects.empty with events := [ButtplugClientEvent.DeviceAdded device] })
  | .DeviceList devs =>
      let acc := devs.foldl deviceListStep (lp, [])
      Except.ok (acc.1, { Effects.empty with events := acc.2 })
  | .DeviceRemoved idx =>
      match alistLookup lp.devices idx with
      | none => Except.error "called Option::unwrap() on a None value"
      | some info =>
          Except.ok
            ({ lp with devices := alistRemove lp.devices idx,
                       device_event_senders := alistRemove lp.device_event_senders idx },
             { Effects.empty with events := [ButtplugClientEvent.DeviceRemoved info] })
  | .Other _ => Except.error "Got connector message type we do not know how to handle!"

/-- ButtplugClientEventLoop::parse_client_message. `.ok` carries the bool
the Rust function returns (false stops the loop), the new state and the
effects; `.error` is a panic. -/
def ButtplugClientEventLoop.parse_client_message
    (lp : ButtplugClientEventLoop) (msg : ButtplugClientMessage) :
    Except String (Bool × ButtplugClientEventLoop × Effects) :=
  match msg with
  | .Message payload state =>
      Except.ok (true, lp,
        { Effects.empty with connector_sends := [(payload, state)] })
  | .Disconnect state =>
      Except.ok (false, lp,
        { Effects.empty with
          disconnect_called := true,
          resolutions := [Resolution.connection state lp.connector.disconnect_result] })
  | .RequestDeviceList state =>
      let acc := lp.devices.foldl requestListStep (lp, [])
      Except.ok (true, acc.1,
        { Effects.empty with resolutions := [Resolution.deviceList state acc.2] })
  | .HandleDeviceList devs =>
      let acc := devs.foldl deviceListStep (lp, [])
      Except.ok (true, acc.1, { Effects.empty with events := acc.2 })
  | .Connect _ _ => Except.error "Client message not handled!"

/-- ButtplugClientEventLoop::wait_for_connector, as a function of the first
receive on the client-command queue; `none` models the producer side having
disappeared (the receiver yields None). -/
def wait_for_connector (first : Option ButtplugClientMessage) :
    Except ButtplugClientConnectorError ButtplugClientEventLoop × Effects :=
  match first with
  | none =>
      (Except.error { message := "Client was dropped during connect." }, Effects.empty)
  | some msg =>
      match msg with
      | .Connect connector state =>
          match connector.connect_result with
          | .error err =>
              (Except.error { message := "Client could not connect to server." },
               { Effects.empty with
                 connect_called := true,
                 resolutions := [Resolution.connection state
                   (Except.error
                     { message := "Cannot connect to server: " ++ err.message })] })
          | .ok _ =>
              (Except.ok { devices := [], device_event_senders := [],
                           next_channel_id := 0, connector := connector },
               { Effects.empty with
                 connect_called := true,
                 resolutions := [Resolution.connection state (Except.ok ())] })
      | _ =>
          (Except.error { message := "Event Loop did not receive Connect message first." },
           Effects.empty)

/-- One resolved arrival of the three-way race in
ButtplugClientEventLoop::run; `none` models the corresponding receiver
observing channel closure. -/
inductive StreamItem where
  | connectorItem (m : Option ButtplugMessageUnion)
  | clientItem (m : Option ButtplugClientMessage)
  | deviceItem (m : Option (ButtplugMessageUnion × Nat))
deriving DecidableEq

/-- The panic message of the device-queue-closed arm of run. -/
def devicePanicMsg : String := "We should never get here."

/-- How a stretch of run ended: broke out of the loop, ran out of supplied
race winners while still blocked receiving, or panicked. -/
inductive RunOutcome where
  | terminated
  | waiting
  | panicked (msg : String)
deriving DecidableEq

/-- ButtplugClientEventLoop::run, driven by the sequence of race winners. -/
def ButtplugClientEventLoop.run :
    ButtplugClientEventLoop → List StreamItem →
      RunOutcome × ButtplugClientEventLoop × Effects
  | lp, [] => (RunOutcome.waiting, lp, Effects.empty)
  | lp, StreamItem.connectorItem none :: _ => (RunOutcome.terminated, lp, Effects.empty)
  | lp, StreamItem.connectorItem (some msg) :: rest =>
      match lp.parse_connector_message msg with
      | .error e => (RunOutcome.panicked e, lp, Effects.empty)
      | .ok (lp1, eff) =>
          let r := lp1.run rest
          (r.1, r.2.1, eff.append r.2.2)
  | lp, StreamItem.clientItem none :: _ => (RunOutcome.terminated, lp, Effects.empty)
  | lp, StreamItem.clientItem (some msg) :: rest =>
      match lp.parse_client_message msg with
      | .error e => (RunOutcome.panicked e, lp, Effects.empty)
      | .ok (cont, lp1, eff) =>
          if cont then
            let r := lp1.run rest
            (r.1, r.2.1, eff.append r.2.2)
          else
            (RunOutcome.terminated, lp1, eff)
  | lp, StreamItem.deviceItem none :: _ =>
      (RunOutcome.panicked devicePanicMsg, lp, Effects.empty)
  | lp, StreamItem.deviceItem (some pair) :: rest =>
      let r := lp.run rest
      (r.1, r.2.1,
       Effects.append { Effects.empty with connector_sends := [pair] } r.2.2)

/-- How client_event_loop ended. -/
inductive LoopExit where
  | ok
  | error (e : ButtplugClientConnectorError)
  | running
  | panicked (msg : String)
deriving DecidableEq

/-- client_event_loop: wait_for_connector, then (on success) run; a
wait_for_connector error propagates out as the function result. -/
def client_event_loop (first : Option ButtplugClientMessage)
    (rest : List StreamItem) : LoopExit × Effects :=
  match wait_for_connector first with
  | (.error e, eff) => (LoopExit.error e, eff)
  | (.ok lp, eff) =>
      match lp.run rest with
      | (RunOutcome.terminated, _, eff2) => (LoopExit.ok, eff.append eff2)
      | (RunOutcome.waiting, _, eff2) => (LoopExit.running, eff.append eff2)
      | (RunOutcome.panicked m, _, eff2) => (LoopExit.panicked m, eff.append eff2)

/-- The async-std channel contract: a receive observes closure (yields
None) only when the count of live Sender handles is zero. -/
def channelRecvClosed (live_senders : Nat) : Prop := live_senders = 0

/-- While run executes on the loop struct, the struct itself still owns
device_message_sender, so at the i-th receive the live sender count of the
device-command queue is `externalClones i + 1` (the clones held by device
handles, plus the loop's own). A race-winner trace is channel-consistent
when every observed device-queue closure respects the channel contract. -/
def TraceValid (externalClones : Nat → Nat) (inputs : List StreamItem) : Prop :=
  ∀ i, inputs.get? i = some (StreamItem.deviceItem none) →
    channelRecvClosed (externalClones i + 1)

/-- Well-formedness of the registry: every binding maps an index to an info
record carrying that same index. Holds for every state the loop builds,
since each insert is keyed by the info's own device_index. -/
def RegistryWF (lp : ButtplugClientEventLoop) : Prop :=
  ∀ p ∈ lp.devices, p.2.device_index = p.1

/-- Checks whether a client command is the Connect variant. -/
def ButtplugClientMessage.isConnect : ButtplugClientMessage → Bool
  | .Connect _ _ => true
  | _ => false

/-- A loop state with empty registry and subscriber map, used for concrete
instantiations. -/
def emptyLoop : ButtplugClientEventLoop :=
  { devices := [], device_event_senders := [], next_channel_id := 0,
    connector := { connect_result := Except.ok (), disconnect_result := Except.ok () } }

lemma alistLookup_insert_self {α : Type} (m : List (Nat × α)) (k : Nat) (v : α) :
    alistLookup (alistInsert m k v) k = some v := by
  induction m with
  | nil => simp [alistInsert, alistLookup]
  | cons p m ih =>
      obtain ⟨k1, v1⟩ := p
      by_cases h : k1 = k <;> simp [alistInsert, alistLookup, h, ih]

lemma mem_alistInsert_self {α : Type} (m : List (Nat × α)) (k : Nat) (v : α) :
    (k, v) ∈ alistInsert m k v := by
  induction m with
  | nil => simp [alistInsert]
  | cons p m ih =>
      obtain ⟨k1, v1⟩ := p
      by_cases h : k1 = k <;> simp [alistInsert, h, ih]

lemma mem_alistInsert {α : Type} {m : List (Nat × α)} {k : Nat} {v : α}
    {p : Nat × α} (h : p ∈ alistInsert m k v) : p = (k, v) ∨ p ∈ m := by
  induction m with
  | nil => simpa [alistInsert] using h
  | cons q m ih =>
      obtain ⟨k1, v1⟩ := q
      by_cases hk : k1 = k
      · simp only [alistInsert, hk, if_pos] at h
        rcases List.mem_cons.mp h with h1 | h1
        · exact Or.inl h1
        · exact Or.inr (List.mem_cons_of_mem _ h1)
      · simp only [alistInsert, hk, if_neg, not_false_iff] at h
        rcases List.mem_cons.mp h with h1 | h1
        · exact Or.inr (by simp [h1])
        · rcases ih h1 with h2 | h2
          · exact Or.inl h2
          · exact Or.inr (List.mem_cons_of_mem _ h2)

lemma mem_alistRemove {α : Type} {m : List (Nat × α)} {k : Nat}
    {p : Nat × α} (h : p ∈ alistRemove m k) : p ∈ m ∧ p.1 ≠ k := by
  induction m with
  | nil => simp [alistRemove] at h
  | cons q m ih =>
      obtain ⟨k1, v1⟩ := q
      by_cases hk : k1 = k
      · simp only [alistRemove, hk, if_pos] at h
        obtain ⟨h1, h2⟩ := ih h
        exact ⟨List.mem_cons_of_mem _ h1, h2⟩
      · simp only [alistRemove, hk, if_neg, not_false_iff] at h
        rcases List.mem_cons.mp h with h1 | h1
        · refine ⟨by simp [h1], ?_⟩
          rw [h1]
          exact hk
        · obtain ⟨h2, h3⟩ := ih h1
          exact ⟨List.mem_cons_of_mem _ h2, h3⟩

lemma alistLookup_remove_self {α : Type} (m : List (Nat × α)) (k : Nat) :
    alistLookup (alistRemove m k) k = none := by
  induction m with
  | nil => rfl
  | cons q m ih =>
      obtain ⟨k1, v1⟩ := q
      by_cases hk : k1 = k <;> simp [alistRemove, alistLookup, hk, ih]

lemma create_preserves_devices (lp : ButtplugClientEventLoop)
    (i : DeviceMessageInfo) : (lp.create_client_device i).1.devices = lp.devices := rfl

lemma create_device_index (lp : ButtplugClientEventLoop) (i : DeviceMessageInfo) :
    (lp.create_client_device i).2.device_index = i.device_index := rfl

lemma requestFold_devices (m : List (Nat × DeviceMessageInfo)) :
    ∀ (lp : ButtplugClientEventLoop) (acc : List ButtplugClientDevice),
      ((m.foldl requestListStep (lp, acc)).1).devices = lp.devices := by
  induction m with
  | nil => intro lp acc; rfl
  | cons p m ih =>
      intro lp acc
      simp only [List.foldl_cons]
      exact ih ((lp.create_client_device p.2).1)
        (acc ++ [(lp.create_client_device p.2).2])

lemma requestFold_indices (m : List (Nat × DeviceMessageInfo)) :
    ∀ (lp : ButtplugClientEventLoop) (acc : List ButtplugClientDevice),
      ((m.foldl requestListStep (lp, acc)).2).map (fun d => d.device_index) =
        acc.map (fun d => d.device_index) ++ m.map (fun p => p.2.device_index) := by
  induction m with
  | nil => intro lp acc; simp
  | cons p m ih =>
      intro lp acc
      simp only [List.foldl_cons, List.map_cons]
      rw [show requestListStep (lp, acc) p =
            ((lp.create_client_device p.2).1,
             acc ++ [(lp.create_client_device p.2).2]) from rfl]
      rw [ih]
      simp [create_device_index]

/-- C1: a Correlated Future resolved with v yields exactly v. An awaiter
whose first poll happens after set_reply(v) receives Ready v on that poll
(and the slot is cleared); an awaiter suspended (polled to Pending) before
the resolution has its waker woken by set_reply(v), its next poll yields
Ready v, and any later poll yields Pending again, so the value is received
exactly once. -/
theorem c1_correlated_future_delivery {T : Type} (s : ButtplugClientFutureState T)
    (v : T) (cxA cxB cxC : Waker) (h : s.reply_msg = none) :
    (∃ s1 w, s.set_reply v = some (s1, w) ∧
      ButtplugClientFuture.poll cxA s1 =
        (Poll.Ready v, { s1 with reply_msg := none })) ∧
    ((ButtplugClientFuture.poll cxA s).1 = Poll.Pending ∧
     ∃ s1, (ButtplugClientFuture.poll cxA s).2.set_reply v = some (s1, some cxA) ∧
       (ButtplugClientFuture.poll cxB s1).1 = Poll.Ready v ∧
       (ButtplugClientFuture.poll cxB s1).2.reply_msg = none ∧
       (ButtplugClientFuture.poll cxC (ButtplugClientFuture.poll cxB s1).2).1 =
         Poll.Pending) := by
  obtain ⟨rm, wk⟩ := s
  cases h
  constructor
  · cases wk with
    | none =>
        exact ⟨{ reply_msg := some v, waker := none }, none, rfl, rfl⟩
    | some u =>
        exact ⟨{ reply_msg := some v, waker := none }, some u, rfl, rfl⟩
  · exact ⟨rfl, { reply_msg := some v, waker := none }, rfl, rfl, rfl, rfl⟩

/-- Witness for C1 at a concrete state and value. -/
theorem c1_witness :
    ({ reply_msg := none, waker := none } :
        ButtplugClientFutureState Nat).reply_msg = none ∧
    ((∃ s1 w,
        ButtplugClientFutureState.set_reply
          { reply_msg := none, waker := none } (5 : Nat) = some (s1, w) ∧
        ButtplugClientFuture.poll ⟨0⟩ s1 =
          (Poll.Ready 5, { s1 with reply_msg := none })) ∧
     ((ButtplugClientFuture.poll ⟨0⟩
          ({ reply_msg := none, waker := none } : ButtplugClientFutureState Nat)).1 =
        Poll.Pending ∧
      ∃ s1,
        (ButtplugClientFuture.poll ⟨0⟩
            ({ reply_msg := none, waker := none } :
              ButtplugClientFutureState Nat)).2.set_reply 5 = some (s1, some ⟨0⟩) ∧
        (ButtplugClientFuture.poll ⟨1⟩ s1).1 = Poll.Ready 5 ∧
        (ButtplugClientFuture.poll ⟨1⟩ s1).2.reply_msg = none ∧
        (ButtplugClientFuture.poll ⟨2⟩ (ButtplugClientFuture.poll ⟨1⟩ s1).2).1 =
          Poll.Pending)) :=
  ⟨rfl, c1_correlated_future_delivery { reply_msg := none, waker := none } 5 ⟨0⟩ ⟨1⟩ ⟨2⟩ rfl⟩

/-- C2: once a value is stored in a Correlated Future state, a second
set_reply is a programming-error fault: the call aborts (models the Rust
panic) and therefore never produces a state, so the stored value v1 is
never overwritten. -/
theorem c2_set_reply_write_once {T : Type} (s : ButtplugClientFutureState T)
    (v1 v2 : T) (h : s.reply_msg = none) :
    ∃ s1 w, s.set_reply v1 = some (s1, w) ∧
      s1.reply_msg = some v1 ∧
      s1.set_reply v2 = none := by
  obtain ⟨rm, wk⟩ := s
  cases h
  cases wk with
  | none => exact ⟨{ reply_msg := some v1, waker := none }, none, rfl, rfl, rfl⟩
  | some u => exact ⟨{ reply_msg := some v1, waker := none }, some u, rfl, rfl, rfl⟩

/-- Witness for C2 at a concrete state and values. -/
theorem c2_witness :
    ({ reply_msg := none, waker := none } :
        ButtplugClientFutureState Nat).reply_msg = none ∧
    ∃ s1 w,
      ButtplugClientFutureState.set_reply
        { reply_msg := none, waker := none } (1 : Nat) = some (s1, w) ∧
      s1.reply_msg = some 1 ∧
      s1.set_reply 2 = none :=
  ⟨rfl, c2_set_reply_write_once { reply_msg := none, waker := none } 1 2 rfl⟩

/-- C3: any first command other than Connect makes wait_for_connector fail
with the protocol-usage error; no session state is produced (the result is
an error, so the Connected state is never reached) and no connector
operation is invoked (the effect trace is empty, in particular
connect_called is false and there are no resolutions or sends). -/
theorem c3_non_connect_first_command_faults (msg : ButtplugClientMessage)
    (h : msg.isConnect = false) :
    wait_for_connector (some msg) =
      (Except.error { message := "Event Loop did not receive Connect message first." },
       Effects.empty) := by
  cases msg with
  | Connect c st => simp [ButtplugClientMessage.isConnect] at h
  | Disconnect st => rfl
  | HandleDeviceList l => rfl
  | RequestDeviceList st => rfl
  | Message p st => rfl

/-- Witness for C3 at a concrete Message command. -/
theorem c3_witness :
    (ButtplugClientMessage.Message (ButtplugMessageUnion.Other 0) 0).isConnect = false ∧
    wait_for_connector (some (ButtplugClientMessage.Message (ButtplugMessageUnion.Other 0) 0)) =
      (Except.error { message := "Event Loop did not receive Connect message first." },
       Effects.empty) :=
  ⟨rfl, c3_non_connect_first_command_faults
    (ButtplugClientMessage.Message (ButtplugMessageUnion.Other 0) 0) rfl⟩

/-- C10: when the very first command is Message, Disconnect or
RequestDeviceList, wait_for_connector exits with an error and an empty
effect trace, so the future state bundled with the command is never
resolved; a task awaiting a never-resolved state polls to Pending forever
(each poll of an unresolved state returns Pending and leaves the slot
empty). -/
theorem c10_first_command_future_never_resolved {T : Type}
    (payload : ButtplugMessageUnion) (f1 f2 f3 : Nat)
    (s : ButtplugClientFutureState T) (cx : Waker) (hs : s.reply_msg = none) :
    wait_for_connector (some (ButtplugClientMessage.Message payload f1)) =
      (Except.error { message := "Event Loop did not receive Connect message first." },
       Effects.empty) ∧
    wait_for_connector (some (ButtplugClientMessage.Disconnect f2)) =
      (Except.error { message := "Event Loop did not receive Connect message first." },
       Effects.empty) ∧
    wait_for_connector (some (ButtplugClientMessage.RequestDeviceList f3)) =
      (Except.error { message := "Event Loop did not receive Connect message first." },
       Effects.empty) ∧
    (ButtplugClientFuture.poll cx s).1 = Poll.Pending ∧
    (ButtplugClientFuture.poll cx s).2.reply_msg = none := by
  obtain ⟨rm, wk⟩ := s
  cases hs
  exact ⟨rfl, rfl, rfl, rfl, rfl⟩

/-- Witness for C10 at concrete commands and an unresolved state. -/
theorem c10_witness :
    ({ reply_msg := none, waker := none } :
        ButtplugClientFutureState Nat).reply_msg = none ∧
    (wait_for_connector (some (ButtplugClientMessage.Message (ButtplugMessageUnion.Other 3) 1)) =
      (Except.error { message := "Event Loop did not receive Connect message first." },
       Effects.empty) ∧
     wait_for_connector (some (ButtplugClientMessage.Disconnect 2)) =
      (Except.error { message := "Event Loop did not receive Connect message first." },
       Effects.empty) ∧
     wait_for_connector (some (ButtplugClientMessage.RequestDeviceList 3)) =
      (Except.error { message := "Event Loop did not receive Connect message first." },
       Effects.empty) ∧
     (ButtplugClientFuture.poll ⟨0⟩
        ({ reply_msg := none, waker := none } : ButtplugClientFutureState Nat)).1 =
       Poll.Pending ∧
     (ButtplugClientFuture.poll ⟨0⟩
        ({ reply_msg := none, waker := none } : ButtplugClientFutureState Nat)).2.reply_msg =
       none) :=
  ⟨rfl, c10_first_command_future_never_resolved (ButtplugMessageUnion.Other 3) 1 2 3
    { reply_msg := none, waker := none } ⟨0⟩ rfl⟩

/-- C4 counterexample: with a connector whose connect fails, the event loop
does NOT continue running: client_event_loop exits with an error, and a
client Message command already queued behind the failed Connect is never
processed (no connector send is ever performed), refuting the claim that
the connect failure leaves the loop running. -/
theorem c4_counterexample :
    (client_event_loop
        (some (ButtplugClientMessage.Connect
          { connect_result := Except.error { message := "refused" },
            disconnect_result := Except.ok () } 7))
        [StreamItem.clientItem
          (some (ButtplugClientMessage.Message (ButtplugMessageUnion.Other 1) 9))]).1 =
      LoopExit.error { message := "Client could not connect to server." } ∧
    (client_event_loop
        (some (ButtplugClientMessage.Connect
          { connect_result := Except.error { message := "refused" },
            disconnect_result := Except.ok () } 7))
        [StreamItem.clientItem
          (some (ButtplugClientMessage.Message (ButtplugMessageUnion.Other 1) 9))]).2.connector_sends =
      [] ∧
    (client_event_loop
        (some (ButtplugClientMessage.Connect
          { connect_result := Except.error { message := "refused" },
            disconnect_result := Except.ok () } 7))
        [StreamItem.clientItem
          (some (ButtplugClientMessage.Message (ButtplugMessageUnion.Other 1) 9))]).1 ≠
      LoopExit.running :=
  ⟨rfl, rfl, by decide⟩

/-- C4 amended: when the connector's connect fails with error e, the
caller's completion future is resolved with an error derived from e
("Cannot connect to server: " followed by e's message), and the event loop
then terminates with an error result, never reaching the Connected state
and ignoring everything still queued. -/
theorem c4_connect_failure_resolves_and_terminates (connector : Connector)
    (err : ButtplugClientConnectorError) (f : Nat) (rest : List StreamItem)
    (h : connector.connect_result = Except.error err) :
    client_event_loop (some (ButtplugClientMessage.Connect connector f)) rest =
      (LoopExit.error { message := "Client could not connect to server." },
       { Effects.empty with
         connect_called := true,
         resolutions := [Resolution.connection f
           (Except.error
             { message := "Cannot connect to server: " ++ err.message })] }) := by
  simp [client_event_loop, wait_for_connector, h]

/-- Witness for C4 at a concrete failing connector. -/
theorem c4_witness :
    ({ connect_result := Except.error { message := "refused" },
       disconnect_result := Except.ok () } : Connector).connect_result =
      Except.error { message := "refused" } ∧
    client_event_loop
        (some (ButtplugClientMessage.Connect
          { connect_result := Except.error { message := "refused" },
            disconnect_result := Except.ok () } 4)) [] =
      (LoopExit.error { message := "Client could not connect to server." },
       { Effects.empty with
         connect_called := true,
         resolutions := [Resolution.connection 4
           (Except.error { message := "Cannot connect to server: refused" })] }) :=
  ⟨rfl, c4_connect_failure_resolves_and_terminates
    { connect_result := Except.error { message := "refused" },
      disconnect_result := Except.ok () }
    { message := "refused" } 4 [] rfl⟩

/-- C6: for every bulk list L and every loop state, the HandleDeviceList
client command and the connector-originated DeviceList notification produce
the identical successor state (same registry, same subscriber map, same
channel counter) and the identical effect trace (the same sequence of
DeviceAdded events, nothing else), the client command additionally asking
the loop to keep running. -/
theorem c6_handle_device_list_matches_connector (lp : ButtplugClientEventLoop)
    (L : List DeviceMessageInfo) :
    ∃ lp1 evs,
      lp.parse_connector_message (ButtplugMessageUnion.DeviceList L) =
        Except.ok (lp1, { Effects.empty with events := evs }) ∧
      lp.parse_client_message (ButtplugClientMessage.HandleDeviceList L) =
        Except.ok (true, lp1, { Effects.empty with events := evs }) :=
  ⟨(L.foldl deviceListStep (lp, [])).1, (L.foldl deviceListStep (lp, [])).2, rfl, rfl⟩

/-- C8 counterexample: the client-command producer disappearing before the
first Connect command does not terminate the loop as a normal success:
client_event_loop exits with the connector error "Client was dropped during
connect.", refuting the claim of a uniform normal termination in every
receiving state. -/
theorem c8_counterexample :
    (client_event_loop none []).1 =
      LoopExit.error { message := "Client was dropped during connect." } ∧
    (client_event_loop none []).1 ≠ LoopExit.ok :=
  ⟨rfl, by decide⟩

/-- C8 amended: closure of the client-command queue or of the connector
notification stream terminates the loop without any panic in every
receiving state: in the Connected state the run loop breaks and
client_event_loop returns success, while before the first Connect command
the queue closing makes client_event_loop return the error result "Client
was dropped during connect." instead of a success. -/
theorem c8_closure_terminates (lp : ButtplugClientEventLoop)
    (rest rest2 rest3 : List StreamItem) (connector : Connector) (f : Nat)
    (hc : connector.connect_result = Except.ok ()) :
    (lp.run (StreamItem.clientItem none :: rest)).1 = RunOutcome.terminated ∧
    (lp.run (StreamItem.connectorItem none :: rest)).1 = RunOutcome.terminated ∧
    (client_event_loop (some (ButtplugClientMessage.Connect connector f))
        (StreamItem.clientItem none :: rest2)).1 = LoopExit.ok ∧
    (client_event_loop (some (ButtplugClientMessage.Connect connector f))
        (StreamItem.connectorItem none :: rest2)).1 = LoopExit.ok ∧
    (client_event_loop none rest3).1 =
      LoopExit.error { message := "Client was dropped during connect." } := by
  refine ⟨rfl, rfl, ?_, ?_, rfl⟩ <;>
    simp [client_event_loop, wait_for_connector, hc, ButtplugClientEventLoop.run]

/-- Witness for C8 at a concrete connector and traces. -/
theorem c8_witness :
    ({ connect_result := Except.ok (), disconnect_result := Except.ok () } :
        Connector).connect_result = Except.ok () ∧
    ((emptyLoop.run [StreamItem.clientItem none]).1 = RunOutcome.terminated ∧
     (emptyLoop.run [StreamItem.connectorItem none]).1 = RunOutcome.terminated ∧
     (client_event_loop
        (some (ButtplugClientMessage.Connect
          { connect_result := Except.ok (), disconnect_result := Except.ok () } 0))
        [StreamItem.clientItem none]).1 = LoopExit.ok ∧
     (client_event_loop
        (some (ButtplugClientMessage.Connect
          { connect_result := Except.ok (), disconnect_result := Except.ok () } 0))
        [StreamItem.connectorItem none]).1 = LoopExit.ok ∧
     (client_event_loop none []).1 =
       LoopExit.error { message := "Client was dropped during connect." }) :=
  ⟨rfl, c8_closure_terminates emptyLoop [] [] []
    { connect_result := Except.ok (), disconnect_result := Except.ok () } 0 rfl⟩

lemma parse_deviceRemoved {lp : ButtplugClientEventLoop} {idx : Nat}
    {info : DeviceMessageInfo} (h : alistLookup lp.devices idx = some info) :
    lp.parse_connector_message (ButtplugMessageUnion.DeviceRemoved idx) =
      Except.ok
        ({ lp with
            devices := alistRemove lp.devices idx,
            device_event_senders := alistRemove lp.device_event_senders idx },
         { Effects.empty with
           events := [ButtplugClientEvent.DeviceRemoved info] }) := by
  simp [ButtplugClientEventLoop.parse_connector_message, h]

/-- C7 counterexample: a state holding device 3 with exactly one subscriber
channel (id 0); processing the device-removed notification for index 3
sends nothing on any per-device event channel (device_events is empty), so
no removal/disconnect notice reaches the device's n = 1 subscribers — only
the single global DeviceRemoved client event is emitted and the subscriber
entry is dropped. -/
theorem c7_counterexample :
    (ButtplugClientEventLoop.mk [(3, { device_index := 3, device_name := "X" })]
        [(3, [0])] 1
        { connect_result := Except.ok (), disconnect_result := Except.ok () }).parse_connector_message
        (ButtplugMessageUnion.DeviceRemoved 3) =
      Except.ok
        (ButtplugClientEventLoop.mk [] [] 1
          { connect_result := Except.ok (), disconnect_result := Except.ok () },
         { Effects.empty with
           events := [ButtplugClientEvent.DeviceRemoved
             { device_index := 3, device_name := "X" }] }) ∧
    ¬ ∃ ev, (0, ev) ∈
      ({ Effects.empty with
         events := [ButtplugClientEvent.DeviceRemoved
           { device_index := 3, device_name := "X" }] } : Effects).device_events :=
  ⟨rfl, by simp [Effects.empty]⟩

/-- C7 amended: when the loop processes a device-removed notification for a
registered index i with n subscriber channels, it removes the info entry
and drops all n subscriber channels of i from the subscriber map (closing
them), broadcasts one global DeviceRemoved client event, and delivers no
explicit event on any per-device subscriber channel. -/
theorem c7_removal_drops_subscribers
    (lp : ButtplugClientEventLoop) (idx : Nat) (info : DeviceMessageInfo)
    (subs : List Nat)
    (h1 : alistLookup lp.devices idx = some info)
    (h2 : alistLookup lp.device_event_senders idx = some subs) :
    ∃ lp3 eff,
      lp.parse_connector_message (ButtplugMessageUnion.DeviceRemoved idx) =
        Except.ok (lp3, eff) ∧
      eff.device_events = [] ∧
      eff.events = [ButtplugClientEvent.DeviceRemoved info] ∧
      alistLookup lp3.device_event_senders idx = none ∧
      alistLookup lp3.devices idx = none := by
  refine ⟨_, _, parse_deviceRemoved h1, rfl, rfl, ?_, ?_⟩
  · exact alistLookup_remove_self _ _
  · exact alistLookup_remove_self _ _

/-- Witness for C7 at the concrete one-subscriber state. -/
theorem c7_witness :
    alistLookup
        (ButtplugClientEventLoop.mk [(3, { device_index := 3, device_name := "X" })]
          [(3, [0])] 1
          { connect_result := Except.ok (), disconnect_result := Except.ok () }).devices 3 =
      some { device_index := 3, device_name := "X" } ∧
    alistLookup
        (ButtplugClientEventLoop.mk [(3, { device_index := 3, device_name := "X" })]
          [(3, [0])] 1
          { connect_result := Except.ok (), disconnect_result := Except.ok () }).device_event_senders 3 =
      some [0] ∧
    ∃ lp3 eff,
      (ButtplugClientEventLoop.mk [(3, { device_index := 3, device_name := "X" })]
          [(3, [0])] 1
          { connect_result := Except.ok (), disconnect_result := Except.ok () }).parse_connector_message
          (ButtplugMessageUnion.DeviceRemoved 3) =
        Except.ok (lp3, eff) ∧
      eff.device_events = [] ∧
      eff.events = [ButtplugClientEvent.DeviceRemoved
        { device_index := 3, device_name := "X" }] ∧
      alistLookup lp3.device_event_senders 3 = none ∧
      alistLookup lp3.devices 3 = none :=
  ⟨rfl, rfl, c7_removal_drops_subscribers
    (ButtplugClientEventLoop.mk [(3, { device_index := 3, device_name := "X" })]
      [(3, [0])] 1
      { connect_result := Except.ok (), disconnect_result := Except.ok () })
    3 { device_index := 3, device_name := "X" } [0] rfl rfl⟩

lemma parse_connector_panic_ne (lp : ButtplugClientEventLoop)
    (msg : ButtplugMessageUnion) (e : String)
    (h : lp.parse_connector_message msg = Except.error e) : e ≠ devicePanicMsg := by
  cases msg with
  | DeviceAdded idx name => simp [ButtplugClientEventLoop.parse_connector_message] at h
  | DeviceList devs => simp [ButtplugClientEventLoop.parse_connector_message] at h
  | DeviceRemoved idx =>
      cases hl : alistLookup lp.devices idx with
      | none =>
          simp [ButtplugClientEventLoop.parse_connector_message, hl] at h
          rw [← h]
          decide
      | some info => simp [ButtplugClientEventLoop.parse_connector_message, hl] at h
  | Other i =>
      simp [ButtplugClientEventLoop.parse_connector_message] at h
      rw [← h]
      decide

lemma parse_client_panic_ne (lp : ButtplugClientEventLoop)
    (msg : ButtplugClientMessage) (e : String)
    (h : lp.parse_client_message msg = Except.error e) : e ≠ devicePanicMsg := by
  cases msg with
  | Connect c st =>
      simp [ButtplugClientEventLoop.parse_client_message] at h
      rw [← h]
      decide
  | Disconnect st => simp [ButtplugClientEventLoop.parse_client_message] at h
  | HandleDeviceList l => simp [ButtplugClientEventLoop.parse_client_message] at h
  | RequestDeviceList st => simp [ButtplugClientEventLoop.parse_client_message] at h
  | Message p st => simp [ButtplugClientEventLoop.parse_client_message] at h

lemma traceValid_tail {ext : Nat → Nat} {x : StreamItem} {xs : List StreamItem}
    (h : TraceValid ext (x :: xs)) : TraceValid (fun i => ext (i + 1)) xs := by
  intro i hi
  exact h (i + 1) (by simpa using hi)

/-- C9: on every channel-consistent race-winner trace — one in which a
receive on the device-command queue can observe closure only when the live
sender count `externalClones i + 1` is zero, which the loop's own retained
device_message_sender makes impossible — run never takes the device-queue
closure branch, so its panic ("We should never get here.") is unreachable. -/
theorem c9_device_closure_panic_unreachable
    (lp : ButtplugClientEventLoop) (ext : Nat → Nat) (inputs : List StreamItem)
    (hv : TraceValid ext inputs) :
    (lp.run inputs).1 ≠ RunOutcome.panicked devicePanicMsg := by
  induction inputs generalizing lp ext with
  | nil => simp [ButtplugClientEventLoop.run]
  | cons x rest ih =>
      have hv' := traceValid_tail hv
      cases x with
      | connectorItem m =>
          cases m with
          | none => simp [ButtplugClientEventLoop.run]
          | some msg =>
              cases hp : lp.parse_connector_message msg with
              | error e =>
                  simp only [ButtplugClientEventLoop.run, hp]
                  intro hc
                  exact parse_connector_panic_ne lp msg e hp
                    (RunOutcome.panicked.inj hc)
              | ok pr =>
                  obtain ⟨lp1, eff⟩ := pr
                  simp only [ButtplugClientEventLoop.run, hp]
                  exact ih lp1 (fun i => ext (i + 1)) hv'
      | clientItem m =>
          cases m with
          | none => simp [ButtplugClientEventLoop.run]
          | some msg =>
              cases hp : lp.parse_client_message msg with
              | error e =>
                  simp only [ButtplugClientEventLoop.run, hp]
                  intro hc
                  exact parse_client_panic_ne lp msg e hp
                    (RunOutcome.panicked.inj hc)
              | ok pr =>
                  obtain ⟨cont, lp1, eff⟩ := pr
                  cases cont with
                  | true =>
                      simp only [ButtplugClientEventLoop.run, hp, if_true]
                      exact ih lp1 (fun i => ext (i + 1)) hv'
                  | false =>
                      simp [ButtplugClientEventLoop.run, hp]
      | deviceItem m =>
          cases m with
          | none =>
              have h0 := hv 0 rfl
              simp [channelRecvClosed] at h0
          | some pair =>
              simp only [ButtplugClientEventLoop.run]
              exact ih lp (fun i => ext (i + 1)) hv'

/-- Witness for C9 at a concrete channel-consistent trace. -/
theorem c9_witness :
    TraceValid (fun _ => 0) [StreamItem.clientItem none] ∧
    (emptyLoop.run [StreamItem.clientItem none]).1 ≠
      RunOutcome.panicked devicePanicMsg := by
  have hv : TraceValid (fun _ => 0) [StreamItem.clientItem none] := by
    intro i hi
    cases i with
    | zero => simp [List.get?] at hi
    | succ n => simp [List.get?] at hi
  exact ⟨hv, c9_device_closure_panic_unreachable emptyLoop (fun _ => 0)
    [StreamItem.clientItem none] hv⟩

/-- C5: in the Connected state, after the loop processes a device-added
notification for index idx, a RequestDeviceList processed on the resulting
state resolves its future with a list containing a handle for idx; after
the loop additionally processes a device-removed notification for idx, a
RequestDeviceList processed on that state resolves with a list containing
no handle for idx — the resolved list reflects the registry at the instant
each command is processed. -/
theorem c5_request_device_list_reflects_registry
    (lp lp1 lp2 lp3 lp4 : ButtplugClientEventLoop)
    (eff1 eff2 eff3 eff4 : Effects)
    (r1 r2 : List ButtplugClientDevice)
    (idx : Nat) (name : String) (f1 f2 : Nat)
    (hwf : RegistryWF lp)
    (h1 : lp.parse_connector_message (ButtplugMessageUnion.DeviceAdded idx name) =
      Except.ok (lp1, eff1))
    (h2 : lp1.parse_client_message (ButtplugClientMessage.RequestDeviceList f1) =
      Except.ok (true, lp2, eff2))
    (h3 : eff2.resolutions = [Resolution.deviceList f1 r1])
    (h5 : lp2.parse_connector_message (ButtplugMessageUnion.DeviceRemoved idx) =
      Except.ok (lp3, eff3))
    (h6 : lp3.parse_client_message (ButtplugClientMessage.RequestDeviceList f2) =
      Except.ok (true, lp4, eff4))
    (h7 : eff4.resolutions = [Resolution.deviceList f2 r2]) :
    (∃ d ∈ r1, d.device_index = idx) ∧ (∀ d ∈ r2, d.device_index ≠ idx) := by
  have hlp1 : lp1 =
      { (lp.create_client_device { device_index := idx, device_name := name }).1 with
        devices := alistInsert lp.devices idx
          { device_index := idx, device_name := name } } :=
    (congrArg Prod.fst (Except.ok.inj h1)).symm
  have hlp2 : lp2 = (lp1.devices.foldl requestListStep (lp1, [])).1 := by
    rw [hlp1] at h2 ⊢
    exact (congrArg (fun q => q.2.1) (Except.ok.inj h2)).symm
  have heff2 : eff2 =
      { Effects.empty with resolutions := [Resolution.deviceList f1
          (lp1.devices.foldl requestListStep (lp1, [])).2] } := by
    rw [hlp1] at h2 ⊢
    exact (congrArg (fun q => q.2.2) (Except.ok.inj h2)).symm
  have hr1 : r1 = (lp1.devices.foldl requestListStep (lp1, [])).2 := by
    rw [heff2] at h3
    simp only [List.cons.injEq, Resolution.deviceList.injEq, and_true, true_and] at h3
    exact h3.symm
  have hlp1dev : lp1.devices =
      alistInsert lp.devices idx { device_index := idx, device_name := name } := by
    rw [hlp1]
  have hwf1 : ∀ p ∈ lp1.devices, p.2.device_index = p.1 := by
    rw [hlp1dev]
    intro p hp
    rcases mem_alistInsert hp with h | h
    · rw [h]
    · exact hwf p h
  have part1 : ∃ d ∈ r1, d.device_index = idx := by
    have hmap := requestFold_indices lp1.devices lp1 []
    have hmem : (idx, ({ device_index := idx, device_name := name } :
        DeviceMessageInfo)) ∈ lp1.devices := by
      rw [hlp1dev]
      exact mem_alistInsert_self lp.devices idx _
    have hin : idx ∈ (lp1.devices.foldl requestListStep (lp1, [])).2.map
        (fun d => d.device_index) := by
      rw [hmap]
      simp only [List.map_nil, List.nil_append]
      exact List.mem_map.mpr ⟨(idx, { device_index := idx, device_name := name }),
        hmem, rfl⟩
    rw [← hr1] at hin
    obtain ⟨d, hd, hde⟩ := List.mem_map.mp hin
    exact ⟨d, hd, hde⟩
  have hlp2dev : lp2.devices = lp1.devices := by
    rw [hlp2]
    exact requestFold_devices lp1.devices lp1 []
  have hlook : alistLookup lp2.devices idx =
      some { device_index := idx, device_name := name } := by
    rw [hlp2dev, hlp1dev]
    exact alistLookup_insert_self lp.devices idx _
  have hlp3 : lp3 =
      { lp2 with
        devices := alistRemove lp2.devices idx,
        device_event_senders := alistRemove lp2.device_event_senders idx } := by
    rw [parse_deviceRemoved hlook] at h5
    exact (congrArg Prod.fst (Except.ok.inj h5)).symm
  have hlp3dev : lp3.devices = alistRemove lp2.devices idx := by
    rw [hlp3]
  have heff4 : eff4 =
      { Effects.empty with resolutions := [Resolution.deviceList f2
          (lp3.devices.foldl requestListStep (lp3, [])).2] } :=
    (congrArg (fun q => q.2.2) (Except.ok.inj h6)).symm
  have hr2 : r2 = (lp3.devices.foldl requestListStep (lp3, [])).2 := by
    rw [heff4] at h7
    simp only [List.cons.injEq, Resolution.deviceList.injEq, and_true, true_and] at h7
    exact h7.symm
  refine ⟨part1, ?_⟩
  intro d hd heq
  have hin : d.device_index ∈ (lp3.devices.foldl requestListStep (lp3, [])).2.map
      (fun d => d.device_index) := by
    rw [← hr2]
    exact List.mem_map.mpr ⟨d, hd, rfl⟩
  rw [requestFold_indices lp3.devices lp3 []] at hin
  simp only [List.map_nil, List.nil_append] at hin
  obtain ⟨p, hp, hpe⟩ := List.mem_map.mp hin
  rw [hlp3dev] at hp
  obtain ⟨hpmem, hpne⟩ := mem_alistRemove hp
  rw [hlp2dev] at hpmem
  have hpidx : p.2.device_index = p.1 := hwf1 p hpmem
  rw [hpidx, heq] at hpe
  exact hpne hpe

/-- Witness for C5: the add / list / remove / list scenario at index 7 on
the empty loop state. -/
theorem c5_witness :
    RegistryWF emptyLoop ∧
    emptyLoop.parse_connector_message (ButtplugMessageUnion.DeviceAdded 7 "X") =
      Except.ok
        (ButtplugClientEventLoop.mk [(7, ⟨7, "X"⟩)] [(7, [0])] 1
          ⟨Except.ok (), Except.ok ()⟩,
         { Effects.empty with
           events := [ButtplugClientEvent.DeviceAdded ⟨7, "X", 0⟩] }) ∧
    (ButtplugClientEventLoop.mk [(7, ⟨7, "X"⟩)] [(7, [0])] 1
        ⟨Except.ok (), Except.ok ()⟩).parse_client_message
        (ButtplugClientMessage.RequestDeviceList 1) =
      Except.ok
        (true,
         ButtplugClientEventLoop.mk [(7, ⟨7, "X"⟩)] [(7, [0, 1])] 2
           ⟨Except.ok (), Except.ok ()⟩,
         { Effects.empty with
           resolutions := [Resolution.deviceList 1 [⟨7, "X", 1⟩]] }) ∧
    ({ Effects.empty with
       resolutions := [Resolution.deviceList 1 [⟨7, "X", 1⟩]] } : Effects).resolutions =
      [Resolution.deviceList 1 [⟨7, "X", 1⟩]] ∧
    (ButtplugClientEventLoop.mk [(7, ⟨7, "X"⟩)] [(7, [0, 1])] 2
        ⟨Except.ok (), Except.ok ()⟩).parse_connector_message
        (ButtplugMessageUnion.DeviceRemoved 7) =
      Except.ok
        (ButtplugClientEventLoop.mk [] [] 2 ⟨Except.ok (), Except.ok ()⟩,
         { Effects.empty with
           events := [ButtplugClientEvent.DeviceRemoved ⟨7, "X"⟩] }) ∧
    (ButtplugClientEventLoop.mk [] [] 2
        ⟨Except.ok (), Except.ok ()⟩).parse_client_message
        (ButtplugClientMessage.RequestDeviceList 2) =
      Except.ok
        (true, ButtplugClientEventLoop.mk [] [] 2 ⟨Except.ok (), Except.ok ()⟩,
         { Effects.empty with resolutions := [Resolution.deviceList 2 []] }) ∧
    ({ Effects.empty with
       resolutions := [Resolution.deviceList 2 []] } : Effects).resolutions =
      [Resolution.deviceList 2 []] ∧
    ((∃ d ∈ [(⟨7, "X", 1⟩ : ButtplugClientDevice)], d.device_index = 7) ∧
     (∀ d ∈ ([] : List ButtplugClientDevice), d.device_index ≠ 7)) := by
  have hwf : RegistryWF emptyLoop := by
    intro p hp
    exact absurd hp (List.not_mem_nil p)
  refine ⟨hwf, rfl, rfl, rfl, rfl, rfl, rfl, ?_⟩
  exact c5_request_device_list_reflects_registry emptyLoop
    (ButtplugClientEventLoop.mk [(7, ⟨7, "X"⟩)] [(7, [0])] 1
      ⟨Except.ok (), Except.ok ()⟩)
    (ButtplugClientEventLoop.mk [(7, ⟨7, "X"⟩)] [(7, [0, 1])] 2
      ⟨Except.ok (), Except.ok ()⟩)
    (ButtplugClientEventLoop.mk [] [] 2 ⟨Except.ok (), Except.ok ()⟩)
    (ButtplugClientEventLoop.mk [] [] 2 ⟨Except.ok (), Except.ok ()⟩)
    { Effects.empty with events := [ButtplugClientEvent.DeviceAdded ⟨7, "X", 0⟩] }
    { Effects.empty with resolutions := [Resolution.deviceList 1 [⟨7, "X", 1⟩]] }
    { Effects.empty with events := [ButtplugClientEvent.DeviceRemoved ⟨7, "X"⟩] }
    { Effects.empty with resolutions := [Resolution.deviceList 2 []] }
    [⟨7, "X", 1⟩] [] 7 "X" 1 2 hwf rfl rfl rfl rfl rfl rfl
